import Mathlib

-- Shallow embedding of tobiaswuerth/tor-runner, src/tor/proxy.py.
--
-- Time is modelled in deciseconds where fractional sleeps occur
-- (the 30 s readiness deadline is 300, the 0.2 s retry sleep is 2,
-- the 1 s connect timeout caps an attempt at 10); the one-second
-- thread join bound and the five-second wait bound keep their
-- source values 1 and 5 as whole time units.
--
-- Operating-system interactions (port allocation, socket connects,
-- process liveness, thread liveness) are nondeterministic inputs of
-- the program; they are modelled as explicit oracle parameters, and
-- every observable side effect of a method is recorded in a trace of
-- actions so that ordering claims can be stated.

-- Python exception kinds that the embedded code can raise.
inductive PyError where
  | attributeError
  | runtimeError
  | fileNotFoundError
  deriving DecidableEq

-- Observable side effects of the TorProxy methods, in program order.
inductive Act where
  | spawn (cmd : List String)      -- subprocess.Popen(cmd, ...)
  | startThread                    -- self._log_thread.start()
  | registerAtexit                 -- atexit.register(self.cleanup)
  | connectAttempt (success : Bool) -- socket.create_connection((host, port), 1)
  | sleep (ds : Nat)               -- time.sleep, duration in deciseconds
  | setStopFlag                    -- self._stop_logging = True
  | joinThread (timeoutS : Nat)    -- self._log_thread.join(timeout=1)
  | poll (running : Bool)          -- self.process.poll() is None
  | terminate                      -- self.process.terminate()
  | waitProc (timeoutS : Nat) (exited : Bool) -- self.process.wait(timeout=5)
  | kill                           -- self.process.kill()
  | clearHandle                    -- self.process = None
  deriving DecidableEq

-- Result of one socket.create_connection attempt: success or OSError,
-- each taking dur deciseconds (the 1 s timeout argument caps dur at 10).
inductive ConnectResult where
  | ok (dur : Nat)
  | fail (dur : Nat)
  deriving DecidableEq

-- Outcome of the readiness polling loop, tagged with the elapsed time
-- in deciseconds at which the loop produced it.
inductive WaitRes where
  | ready (t : Nat)
  | timedOut (t : Nat)
  deriving DecidableEq

-- The mutable attributes of a TorProxy instance.  Attributes that
-- __init__ never assigns (_stop_logging, _log_thread) are Option
-- values whose none case means the attribute is absent, so that
-- reading it raises AttributeError.
structure TorState where
  tor_path : String
  socks_port : Nat
  ctrl_port : Nat
  spawn_kwargs : List (String × String)
  process : Option Nat       -- self.process; none models None, some pid a Popen handle
  stop_logging : Option Bool -- self._stop_logging; none models the attribute being absent
  log_thread : Option Unit   -- self._log_thread; none models the attribute being absent
  deriving DecidableEq

-- Nondeterministic facts observed by cleanup: whether the drain thread
-- is alive at the is_alive() call, whether poll() reports the process
-- still running, and whether wait(timeout=5) returns before the
-- TimeoutExpired deadline.
structure CleanupEnv where
  thread_alive : Bool
  proc_running : Bool
  graceful : Bool
  deriving DecidableEq

-- Nondeterministic facts observed by __enter__: the tempfile.mkdtemp
-- result, the pid of the spawned process, and the outcome of the n-th
-- connect attempt of the readiness loop.
structure EnterEnv where
  tmpdir : String
  pid : Nat
  oracle : Nat → ConnectResult

-- Python truthiness of an `int | None` value as used by
-- `socks_port or _free_port()`: None and 0 are falsy.
def pyTruthy : Option Nat → Bool
  | none => false
  | some p => p != 0

-- TorProxy.__init__.  `_free_port` is a pair of OS socket calls whose
-- returned port is nondeterministic; it is modelled by the allocator
-- oracle `alloc`, indexed by the number of `_free_port` calls already
-- made by this constructor.  The `self.tor_path.exists()` check, which
-- raises FileNotFoundError before any field below is assigned, is an
-- out-of-model filesystem fact and is treated as a precondition here.
def TorProxy.init (alloc : Nat → Nat) (tor_exe_path : String)
    (socks_port ctrl_port : Option Nat) (spawn_kwargs : List (String × String)) : TorState :=
  -- self.socks_port = socks_port or _free_port()
  let sp := if pyTruthy socks_port then socks_port.getD 0 else alloc 0
  -- self.ctrl_port = ctrl_port or _free_port()
  let cp := if pyTruthy ctrl_port then ctrl_port.getD 0
            else if pyTruthy socks_port then alloc 0 else alloc 1
  { tor_path := tor_exe_path, socks_port := sp, ctrl_port := cp,
    spawn_kwargs := spawn_kwargs, process := none,
    stop_logging := none, log_thread := none }

-- The cmd list built at the top of __enter__: the fixed flags, then,
-- when spawn_kwargs is non-empty, two appends per key/value pair.
def buildCmd (tor_path : String) (socks_port ctrl_port : Nat) (data_dir : String)
    (spawn_kwargs : List (String × String)) : List String :=
  let cmd := [tor_path, "--SocksPort", toString socks_port, "--ControlPort",
              toString ctrl_port, "--DataDirectory", data_dir]
  -- if self.spawn_kwargs: for key, value in ...: cmd.append(...); cmd.append(...)
  if spawn_kwargs.isEmpty then cmd
  else spawn_kwargs.foldl (fun c kv => c ++ ["--" ++ kv.1, kv.2]) cmd

-- Modelled from the spec: the command-line shape stated in section 6,
-- `<exe> --SocksPort <p1> --ControlPort <p2> --DataDirectory <tmp_dir>`
-- followed by one `--key value` pair per extra option.  Used only to
-- compare the code-derived buildCmd against the spec wording.
def specCommandLine (exe : String) (p1 p2 : Nat) (tmp_dir : String)
    (extra : List (String × String)) : List String :=
  [exe, "--SocksPort", toString p1, "--ControlPort", toString p2,
   "--DataDirectory", tmp_dir]
    ++ extra.flatMap (fun kv => ["--" ++ kv.1, kv.2])

-- The readiness polling loop of __enter__:
--   deadline = time.time() + 30
--   while time.time() < deadline:
--     try: s = socket.create_connection((host, port), 1); s.close(); break
--     except OSError: time.sleep(0.2)
--   else: raise RuntimeError
-- t is elapsed deciseconds, n counts attempts, deadline is 300.
-- fuel is a structural-recursion bound; whenever deadline - t <= 2 * fuel
-- the fuel-exhaustion branch coincides with the normal loop exit, since
-- every failing iteration advances t by at least 2 (the 0.2 s sleep),
-- so the fuel branch is never observably reached.
def waitReadyAux (oracle : Nat → ConnectResult) (deadline fuel n t : Nat) :
    WaitRes × List Act :=
  match fuel with
  | 0 => (WaitRes.timedOut t, [])
  | fuel2 + 1 =>
    if t < deadline then
      match oracle n with
      | ConnectResult.ok d => (WaitRes.ready (t + d), [Act.connectAttempt true])
      | ConnectResult.fail d =>
          let r := waitReadyAux oracle deadline fuel2 (n + 1) (t + d + 2)
          (r.1, Act.connectAttempt false :: Act.sleep 2 :: r.2)
    else (WaitRes.timedOut t, [])

-- The loop as run by __enter__: a 300-decisecond (30 s) deadline from
-- time zero; fuel 300 satisfies 300 - 0 <= 2 * 300.
def torStartupWait (oracle : Nat → ConnectResult) : WaitRes × List Act :=
  waitReadyAux oracle 300 300 0 0

-- TorProxy.__enter__.  Effects in source order: build cmd, Popen,
-- assign _stop_logging = False, create and start the drain thread,
-- register the atexit hook, then block on the readiness loop.  On
-- readiness success it returns self; on deadline expiry it raises
-- RuntimeError.  Mutations made before a raise persist, so the state
-- is returned in both cases.
def TorProxy.enter (env : EnterEnv) (s : TorState) : Option PyError × TorState × List Act :=
  let cmd := buildCmd s.tor_path s.socks_port s.ctrl_port env.tmpdir s.spawn_kwargs
  let s1 : TorState :=
    { s with process := some env.pid, stop_logging := some false, log_thread := some () }
  let pre := [Act.spawn cmd, Act.startThread, Act.registerAtexit]
  match torStartupWait env.oracle with
  | (WaitRes.ready _, wtr) => (none, s1, pre ++ wtr)
  | (WaitRes.timedOut _, wtr) => (some PyError.runtimeError, s1, pre ++ wtr)

-- TorProxy.cleanup.  Source order:
--   self._stop_logging = True
--   if self._log_thread and self._log_thread.is_alive(): self._log_thread.join(timeout=1)
--   if self.process and self.process.poll() is None:
--     self.process.terminate()
--     try: self.process.wait(timeout=5)
--     except subprocess.TimeoutExpired: self.process.kill()
--   if self.process: self.process = None
-- Reading self._log_thread on an instance whose __init__ never assigned
-- it raises AttributeError; the assignment to _stop_logging on the line
-- before it always succeeds and persists.
def TorProxy.cleanup (env : CleanupEnv) (s : TorState) : Option PyError × TorState × List Act :=
  let s1 : TorState := { s with stop_logging := some true }
  -- the update above leaves _log_thread and process untouched, so the
  -- two attribute reads below are matched on the incoming state
  match s.log_thread with
  | none => (some PyError.attributeError, s1, [Act.setStopFlag])
  | some _ =>
    let tr1 := [Act.setStopFlag] ++ (if env.thread_alive then [Act.joinThread 1] else [])
    let tr2 := tr1 ++
      (match s.process with
       | none => []
       | some _ =>
         [Act.poll env.proc_running] ++
           (if env.proc_running then
              [Act.terminate] ++
                (if env.graceful then [Act.waitProc 5 true]
                 else [Act.waitProc 5 false, Act.kill])
            else []))
    match s.process with
    | none => (none, s1, tr2)
    | some _ => (none, { s1 with process := none }, tr2 ++ [Act.clearHandle])

-- Python str.strip() with no argument: remove leading and trailing
-- whitespace, modelled on the character list of the string.
def pyStrip (s : String) : String :=
  ⟨((s.data.dropWhile Char.isWhitespace).reverse.dropWhile Char.isWhitespace).reverse⟩

-- The while loop of TorProxy._log_process_output.  sched gives, per
-- iteration, the observed values of (self._stop_logging,
-- self.process.poll() is None) — both are read concurrently mutated
-- facts.  pending is the queue of strings that successive readline()
-- calls return, each a produced output line; an empty queue models
-- readline() returning "" (no data), which takes the sleep branch.
-- Returns (lines forwarded to the logger, lines never read).
def TorProxy.logOutputLoop : List (Bool × Bool) → List String → List String × List String
  | [], pending => ([], pending)
  | (stop, running) :: rest, pending =>
      -- while not self._stop_logging and self.process.poll() is None:
      if stop || !running then ([], pending)
      else
        match pending with
        | [] => TorProxy.logOutputLoop rest []  -- line falsy: time.sleep(0.1), retry
        | l :: p =>
            let t := pyStrip l
            if t == "" then TorProxy.logOutputLoop rest p  -- blank after strip: skipped
            else
              let r := TorProxy.logOutputLoop rest p
              (t :: r.1, r.2)                   -- self.logger.debug(line)

-- TorProxy._log_process_output: the `if not self.process: return`
-- guard, then the loop above.
def TorProxy.logProcessOutput (hasProc : Bool) (sched : List (Bool × Bool))
    (pending : List String) : List String × List String :=
  if hasProc then TorProxy.logOutputLoop sched pending else ([], pending)

-- Trace observers used by the claims.

-- The commands passed to Popen within a trace.
def spawnedCmds (tr : List Act) : List (List String) :=
  tr.filterMap fun a => match a with | Act.spawn c => some c | _ => none

-- Acts that the readiness loop can emit.
def isWaitAct : Act → Bool
  | Act.connectAttempt _ => true
  | Act.sleep _ => true
  | _ => false

-- Acts that inspect the exit status of the managed process.
def inspectsProcess : Act → Bool
  | Act.poll _ => true
  | Act.waitProc _ _ => true
  | _ => false

-- Acts that only the cleanup routine performs.
def cleanupActs : Act → Bool
  | Act.setStopFlag => true
  | Act.joinThread _ => true
  | Act.terminate => true
  | Act.kill => true
  | Act.clearHandle => true
  | _ => false

-- Acts that observe the process to be no longer running: a poll that
-- reports it exited, or a wait that returned before its deadline.
def confirmsExit : Act → Bool
  | Act.poll false => true
  | Act.waitProc _ true => true
  | _ => false

-- Concrete sample inputs shared by witnesses and counterexamples.

def allocSeq : Nat → Nat := fun n => 9050 + n

def sampleFresh : TorState := TorProxy.init allocSeq ("tor") none none []

def sampleStarted : TorState :=
  { sampleFresh with process := some 7, stop_logging := some false, log_thread := some () }

def envFail : EnterEnv :=
  { tmpdir := ("/tmp/tor_data_0"), pid := 42, oracle := fun _ => ConnectResult.fail 8 }

def envOk : EnterEnv :=
  { tmpdir := ("/tmp/tor_data_0"), pid := 42, oracle := fun _ => ConnectResult.ok 1 }

def envC5 : CleanupEnv := { thread_alive := true, proc_running := true, graceful := false }

-- Helper lemmas.

-- Appending two strings per pair through a fold equals one flatMap.
lemma foldl_optPairs (l : List (String × String)) (acc : List String) :
    l.foldl (fun c kv => c ++ ["--" ++ kv.1, kv.2]) acc
      = acc ++ l.flatMap (fun kv => ["--" ++ kv.1, kv.2]) := by
  induction l generalizing acc with
  | nil => simp
  | cons kv l ih => simp [ih]

-- The command list built by __enter__ has exactly the shape the spec states.
lemma buildCmd_eq_specCommandLine (exe : String) (p1 p2 : Nat) (dir : String)
    (extra : List (String × String)) :
    buildCmd exe p1 p2 dir extra = specCommandLine exe p1 p2 dir extra := by
  cases extra with
  | nil => simp [buildCmd, specCommandLine]
  | cons kv l => simp [buildCmd, specCommandLine, foldl_optPairs]

-- Every act emitted by the readiness loop is a connect attempt or a sleep.
lemma waitReadyAux_trace_waitActs (oracle : Nat → ConnectResult) (deadline : Nat) :
    ∀ fuel n t, ((waitReadyAux oracle deadline fuel n t).2).all isWaitAct = true := by
  intro fuel
  induction fuel with
  | zero => intro n t; simp [waitReadyAux]
  | succ fuel ih =>
      intro n t
      by_cases hlt : t < deadline
      · cases ho : oracle n with
        | ok d => simp [waitReadyAux, hlt, ho, isWaitAct]
        | fail d => simp [waitReadyAux, hlt, ho, isWaitAct, ih]
      · simp [waitReadyAux, hlt]

-- A trace of connect attempts and sleeps spawns nothing.
lemma spawnedCmds_of_waitActs (l : List Act) (h : l.all isWaitAct = true) :
    spawnedCmds l = [] := by
  induction l with
  | nil => rfl
  | cons a l ih =>
      simp only [List.all_cons, Bool.and_eq_true] at h
      cases a <;> simp_all [isWaitAct, spawnedCmds]

-- A trace of connect attempts and sleeps contains no cleanup act.
lemma no_cleanupActs_of_waitActs (l : List Act) (h : l.all isWaitAct = true) :
    l.all (fun a => !cleanupActs a) = true := by
  induction l with
  | nil => rfl
  | cons a l ih =>
      simp only [List.all_cons, Bool.and_eq_true] at h ⊢
      refine ⟨?_, ih h.2⟩
      cases a <;> simp_all [isWaitAct, cleanupActs]

-- A trace of connect attempts and sleeps never inspects the process.
lemma no_inspection_of_waitActs (l : List Act) (h : l.all isWaitAct = true) :
    l.all (fun a => !inspectsProcess a) = true := by
  induction l with
  | nil => rfl
  | cons a l ih =>
      simp only [List.all_cons, Bool.and_eq_true] at h ⊢
      refine ⟨?_, ih h.2⟩
      cases a <;> simp_all [isWaitAct, inspectsProcess]

-- When every connect attempt fails and each takes at most 10 ds
-- (the 1 s socket timeout), the loop times out: it runs to the 300 ds
-- deadline, never beyond 311 ds, and its trace is an alternation of
-- failed attempts and 2 ds sleeps.
lemma waitReadyAux_allFail (dur : Nat → Nat) (hd : ∀ k, dur k ≤ 10) :
    ∀ fuel n t, 300 - t ≤ 2 * fuel →
      ∃ tf k,
        waitReadyAux (fun j => ConnectResult.fail (dur j)) 300 fuel n t
          = (WaitRes.timedOut tf,
             (List.replicate k [Act.connectAttempt false, Act.sleep 2]).flatten)
        ∧ (300 ≤ t → tf = t) ∧ (t < 300 → 300 ≤ tf ∧ tf ≤ 311) := by
  intro fuel
  induction fuel with
  | zero =>
      intro n t h
      refine ⟨t, 0, by simp [waitReadyAux], fun _ => rfl, fun hlt => by omega⟩
  | succ fuel ih =>
      intro n t h
      by_cases hlt : t < 300
      · obtain ⟨tf, k, heq, hge, hbnd⟩ :=
          ih (n + 1) (t + dur n + 2) (by have := hd n; omega)
        refine ⟨tf, k + 1, ?_, fun hc => by omega, fun _ => ?_⟩
        · simp [waitReadyAux, hlt, heq, List.replicate_succ]
        · by_cases h2 : t + dur n + 2 < 300
          · exact hbnd h2
          · have h3 := hge (by omega)
            have := hd n
            omega
      · exact ⟨t, 0, by simp [waitReadyAux, hlt], fun _ => rfl, fun h2 => by omega⟩

-- Claim theorems.

/-- C1: the claim says calling cleanup on an instance on which no process
was ever created completes as a no-op without raising any error.  On the
code, a constructed-but-never-entered instance has no `_log_thread`
attribute (only `__enter__` assigns it), so the attribute read inside
cleanup raises AttributeError: for every cleanup environment and every
constructor input, running cleanup on the freshly constructed state
raises. -/
theorem tor_c1_cleanup_never_started_raises (env : CleanupEnv) (alloc : Nat → Nat)
    (path : String) (sp cp : Option Nat) (kw : List (String × String)) :
    (TorProxy.cleanup env (TorProxy.init alloc path sp cp kw)).1
      = some PyError.attributeError := rfl

/-- C4 counterexample: when the operating-system allocator hands out the
same ephemeral port for both `_free_port` calls (possible, since the
probe socket is closed before the second call), the constructed instance
has equal SOCKS and control ports — the code performs no uniqueness
check, so the claim that the two ports are never equal fails. -/
theorem tor_c4_counterexample :
    (TorProxy.init (fun _ => 5000) ("tor") none none []).socks_port
      = (TorProxy.init (fun _ => 5000) ("tor") none none []).ctrl_port := by decide

/-- C4 (amended): when both ports are left unassigned, the SOCKS and
control ports are the first two values returned by the port allocator;
they are distinct exactly when the allocator returns distinct values on
its two calls — the constructor adds no uniqueness check of its own. -/
theorem tor_c4_ports_distinct_when_alloc_distinct (alloc : Nat → Nat)
    (h : alloc 0 ≠ alloc 1) (path : String) (kw : List (String × String)) :
    (TorProxy.init alloc path none none kw).socks_port
      ≠ (TorProxy.init alloc path none none kw).ctrl_port := by
  simpa [TorProxy.init, pyTruthy] using h

theorem tor_c4_witness :
    allocSeq 0 ≠ allocSeq 1
    ∧ (TorProxy.init allocSeq ("tor") none none []).socks_port
        ≠ (TorProxy.init allocSeq ("tor") none none []).ctrl_port :=
  ⟨by decide, tor_c4_ports_distinct_when_alloc_distinct allocSeq (by decide) ("tor") []⟩

/-- C10: passing 0 as the SOCKS or control port is falsy under the
`port or _free_port()` idiom, so the constructor behaves exactly as if
the port had been omitted, and — since the operating system never
allocates port 0 — the instance never uses port 0. -/
theorem tor_c10_port_zero_reallocated (alloc : Nat → Nat) (h : ∀ n, alloc n ≠ 0)
    (path : String) (kw : List (String × String)) (sp cp : Option Nat) :
    TorProxy.init alloc path (some 0) cp kw = TorProxy.init alloc path none cp kw
    ∧ TorProxy.init alloc path sp (some 0) kw = TorProxy.init alloc path sp none kw
    ∧ (TorProxy.init alloc path (some 0) (some 0) kw).socks_port ≠ 0
    ∧ (TorProxy.init alloc path (some 0) (some 0) kw).ctrl_port ≠ 0 := by
  refine ⟨?_, ?_, ?_, ?_⟩
  · simp [TorProxy.init, pyTruthy]
  · simp [TorProxy.init, pyTruthy]
  · simpa [TorProxy.init, pyTruthy] using h 0
  · simpa [TorProxy.init, pyTruthy] using h 1

theorem tor_c10_witness :
    (∀ n, allocSeq n ≠ 0)
    ∧ (TorProxy.init allocSeq ("tor") (some 0) (some 0) []
          = TorProxy.init allocSeq ("tor") none (some 0) []
       ∧ TorProxy.init allocSeq ("tor") (some 0) (some 0) []
          = TorProxy.init allocSeq ("tor") (some 0) none []
       ∧ (TorProxy.init allocSeq ("tor") (some 0) (some 0) []).socks_port ≠ 0
       ∧ (TorProxy.init allocSeq ("tor") (some 0) (some 0) []).ctrl_port ≠ 0) :=
  ⟨fun n => by simp [allocSeq],
   tor_c10_port_zero_reallocated allocSeq (fun n => by simp [allocSeq]) ("tor") []
     (some 0) (some 0)⟩

/-- C9: every run of the start operation spawns exactly one process, and
the command line it passes is exactly the executable path, `--SocksPort`
with the SOCKS port, `--ControlPort` with the control port,
`--DataDirectory` with the fresh temporary directory, and one
`--key value` pair per extra configuration entry, in that order. -/
theorem tor_c9_command_line (env : EnterEnv) (s : TorState) :
    spawnedCmds (TorProxy.enter env s).2.2
      = [specCommandLine s.tor_path s.socks_port s.ctrl_port env.tmpdir s.spawn_kwargs] := by
  have hw : ((torStartupWait env.oracle).2).all isWaitAct = true :=
    waitReadyAux_trace_waitActs env.oracle 300 300 0 0
  rcases h : torStartupWait env.oracle with ⟨res, wtr⟩
  rw [h] at hw
  have hnil : spawnedCmds wtr = [] := spawnedCmds_of_waitActs wtr hw
  cases res <;>
    simp [TorProxy.enter, h, spawnedCmds, List.filterMap_append,
          buildCmd_eq_specCommandLine] <;>
    simpa [spawnedCmds] using hnil

/-- C2 counterexample: with a readiness oracle that never connects, the
start operation raises RuntimeError with the process handle still set
and without a single cleanup action in its trace — so the claim that
cleanup is invoked before surfacing the timeout, leaving the instance
stopped with no leaked process, fails on the code. -/
theorem tor_c2_counterexample :
    (TorProxy.enter envFail sampleFresh).1 = some PyError.runtimeError
    ∧ (TorProxy.enter envFail sampleFresh).2.1.process = some 42
    ∧ ((TorProxy.enter envFail sampleFresh).2.2).all (fun a => !cleanupActs a) = true := by
  refine ⟨by decide, by decide, by decide⟩

/-- C2 (amended): if the readiness wait elapses without a successful
connect, the start operation surfaces the startup-timeout failure
without invoking cleanup: the process handle remains set (the spawned
process and drain thread are reaped only later, by the registered
interpreter-exit hook or an explicit stop), and the trace of the failed
start contains no cleanup action. -/
theorem tor_c2_timeout_leaves_process (tmpdir : String) (pid : Nat) (s : TorState)
    (dur : Nat → Nat) (hd : ∀ k, dur k ≤ 10) :
    (TorProxy.enter ⟨tmpdir, pid, fun j => ConnectResult.fail (dur j)⟩ s).1
      = some PyError.runtimeError
    ∧ (TorProxy.enter ⟨tmpdir, pid, fun j => ConnectResult.fail (dur j)⟩ s).2.1.process
      = some pid
    ∧ ((TorProxy.enter ⟨tmpdir, pid, fun j => ConnectResult.fail (dur j)⟩ s).2.2).all
        (fun a => !cleanupActs a) = true := by
  obtain ⟨tf, k, heq, _, _⟩ := waitReadyAux_allFail dur hd 300 0 0 (by omega)
  have ht : torStartupWait (fun j => ConnectResult.fail (dur j))
      = (WaitRes.timedOut tf,
         (List.replicate k [Act.connectAttempt false, Act.sleep 2]).flatten) := heq
  have hw := waitReadyAux_trace_waitActs (fun j => ConnectResult.fail (dur j)) 300 300 0 0
  rw [show waitReadyAux (fun j => ConnectResult.fail (dur j)) 300 300 0 0
        = torStartupWait (fun j => ConnectResult.fail (dur j)) from rfl, ht] at hw
  refine ⟨?_, ?_, ?_⟩
  · simp [TorProxy.enter, ht]
  · simp [TorProxy.enter, ht]
  · simp [TorProxy.enter, ht, List.all_append, cleanupActs,
          no_cleanupActs_of_waitActs _ hw]

theorem tor_c2_witness :
    (∀ _k : Nat, (8 : Nat) ≤ 10)
    ∧ ((TorProxy.enter envFail sampleFresh).1 = some PyError.runtimeError
       ∧ (TorProxy.enter envFail sampleFresh).2.1.process = some 42
       ∧ ((TorProxy.enter envFail sampleFresh).2.2).all (fun a => !cleanupActs a) = true) :=
  ⟨fun _ => by decide,
   tor_c2_timeout_leaves_process ("/tmp/tor_data_0") 42 sampleFresh (fun _ => 8)
     (fun _ => @Nat.le.intro 8 10 2 rfl)⟩

/-- C3 counterexample: starting an instance whose managed process is
already present neither fails fast nor is a no-op — the code spawns a
second process (the trace contains a spawn), overwrites the handle with
the new process, and returns successfully, so the at-most-one-process
claim fails on the code. -/
theorem tor_c3_counterexample :
    sampleStarted.process = some 7
    ∧ spawnedCmds (TorProxy.enter envOk sampleStarted).2.2 ≠ []
    ∧ (TorProxy.enter envOk sampleStarted).2.1.process = some 42
    ∧ (TorProxy.enter envOk sampleStarted).1 = none := by
  refine ⟨by decide, by decide, by decide, by decide⟩

/-- C3 (amended): the start operation never checks whether a managed
process is already present: invoked on a state whose process handle is
set, it spawns again unconditionally and overwrites the handle with the
newly spawned process, abandoning the previous one — the at-most-one
invariant is not enforced. -/
theorem tor_c3_reenter_spawns_again (env : EnterEnv) (s : TorState) (p : Nat)
    (_h : s.process = some p) :
    spawnedCmds (TorProxy.enter env s).2.2 ≠ []
    ∧ (TorProxy.enter env s).2.1.process = some env.pid := by
  rcases hres : torStartupWait env.oracle with ⟨res, wtr⟩
  cases res <;>
    simp [TorProxy.enter, hres, spawnedCmds, List.filterMap_append, List.filterMap_cons]

theorem tor_c3_witness :
    sampleStarted.process = some 7
    ∧ (spawnedCmds (TorProxy.enter envOk sampleStarted).2.2 ≠ []
       ∧ (TorProxy.enter envOk sampleStarted).2.1.process = some envOk.pid) :=
  ⟨rfl, tor_c3_reenter_spawns_again envOk sampleStarted 7 rfl⟩

/-- C5 counterexample: when the process survives the 5-unit graceful
wait, cleanup force-kills and then clears the handle as the very next
action — no act in the whole trace observes the process to be
non-running (no poll reporting exit, no wait that returned), so the
claim that the process is confirmed non-running before the handle is
cleared fails on the code. -/
theorem tor_c5_counterexample :
    (TorProxy.cleanup envC5 sampleStarted).2.2
      = [Act.setStopFlag, Act.joinThread 1, Act.poll true, Act.terminate,
         Act.waitProc 5 false, Act.kill, Act.clearHandle]
    ∧ Act.kill ∈ (TorProxy.cleanup envC5 sampleStarted).2.2
    ∧ ((TorProxy.cleanup envC5 sampleStarted).2.2).all (fun a => !confirmsExit a) = true
    ∧ ((TorProxy.cleanup envC5 sampleStarted).2.2).getLast? = some Act.clearHandle := by
  refine ⟨by decide, by decide, by decide, by decide⟩

/-- C5 (amended): on a started instance, cleanup performs exactly, in
order: set the drain-stop flag; join the drain task with a bound of 1
time unit when it is alive (a hung task is abandoned, not fatal); poll
the process, and when it is still running request graceful termination
and wait up to 5 time units, force-killing on expiry of that wait; and
clear the process handle last.  In the force-kill path the kill is not
followed by any re-check, so the handle is cleared without the process
being confirmed non-running. -/
theorem tor_c5_cleanup_order (env : CleanupEnv) (s : TorState) (pid : Nat)
    (hp : s.process = some pid) (ht : s.log_thread = some ()) :
    TorProxy.cleanup env s
      = (none, { s with stop_logging := some true, process := none },
         ([Act.setStopFlag] ++ (if env.thread_alive then [Act.joinThread 1] else []))
           ++ ([Act.poll env.proc_running]
             ++ (if env.proc_running then
                   [Act.terminate]
                     ++ (if env.graceful then [Act.waitProc 5 true]
                         else [Act.waitProc 5 false, Act.kill])
                 else []))
           ++ [Act.clearHandle]) := by
  rcases env with ⟨ta, pr, g⟩
  cases ta <;> cases pr <;> cases g <;>
    simp [TorProxy.cleanup, hp, ht]

theorem tor_c5_witness :
    sampleStarted.process = some 7
    ∧ sampleStarted.log_thread = some ()
    ∧ TorProxy.cleanup envC5 sampleStarted
      = (none, { sampleStarted with stop_logging := some true, process := none },
         ([Act.setStopFlag] ++ (if envC5.thread_alive then [Act.joinThread 1] else []))
           ++ ([Act.poll envC5.proc_running]
             ++ (if envC5.proc_running then
                   [Act.terminate]
                     ++ (if envC5.graceful then [Act.waitProc 5 true]
                         else [Act.waitProc 5 false, Act.kill])
                 else []))
           ++ [Act.clearHandle]) :=
  ⟨rfl, rfl, tor_c5_cleanup_order envC5 sampleStarted 7 rfl rfl⟩

/-- C6 counterexample: a process writes one non-blank line and exits;
on a schedule where the loop observes the exit at its first iteration,
the drain loop terminates with nothing forwarded and the line left
unread — so the claim that every trimmed, non-empty output line of the
process is forwarded fails on the code. -/
theorem tor_c6_counterexample :
    (TorProxy.logOutputLoop [(false, false)] [("hello")]).1 = []
    ∧ (TorProxy.logOutputLoop [(false, false)] [("hello")]).2 = [("hello")]
    ∧ pyStrip ("hello") ≠ ("") := by
  refine ⟨by decide, by decide, by decide⟩

/-- C6 (amended): the drain loop stops as soon as an iteration observes
the stop flag set or the process exited, and the lines it forwards to
the diagnostic sink are exactly the stripped non-blank members of the
prefix of readline results it consumed before stopping, in order and
each at most once; lines still unread at that point (for example lines
buffered when the process is observed to have exited) are never
forwarded, and no line raises — blank lines are skipped silently. -/
theorem tor_c6_drain_forwards_read_prefix (sched : List (Bool × Bool))
    (pending : List String) :
    (∃ k, TorProxy.logOutputLoop sched pending
        = (((pending.take k).map pyStrip).filter (fun l => l != ("")),
           pending.drop k))
    ∧ (∀ r rest, TorProxy.logOutputLoop ((true, r) :: rest) pending = ([], pending))
    ∧ (∀ st rest, TorProxy.logOutputLoop ((st, false) :: rest) pending = ([], pending)) := by
  refine ⟨?_, ?_, ?_⟩
  · induction sched generalizing pending with
    | nil => exact ⟨0, by simp [TorProxy.logOutputLoop]⟩
    | cons step rest ih =>
        obtain ⟨stop, running⟩ := step
        cases stop with
        | true => exact ⟨0, by simp [TorProxy.logOutputLoop]⟩
        | false =>
          cases running with
          | false => exact ⟨0, by simp [TorProxy.logOutputLoop]⟩
          | true =>
            cases pending with
            | nil =>
                obtain ⟨k, hk⟩ := ih []
                exact ⟨0, by simp [TorProxy.logOutputLoop, hk]⟩
            | cons l p =>
                obtain ⟨k, hk⟩ := ih p
                refine ⟨k + 1, ?_⟩
                by_cases hblank : pyStrip l = ("") <;>
                  simp [TorProxy.logOutputLoop, hblank, List.filter_cons, hk]
  · intro r rest; simp [TorProxy.logOutputLoop]
  · intro st rest; simp [TorProxy.logOutputLoop]

/-- C7: under the 1 s (10 ds) cap on each connect attempt, the
readiness gate returns success immediately after a successful
connect-then-close (a single attempt, no sleep), and when every attempt
fails it times out: each failed attempt is followed by a 2 ds sleep and
retry, and the startup-timeout error surfaces at a time tf with
300 ≤ tf ≤ 311 deciseconds — at approximately the 30 s deadline, not
earlier and not indefinitely later. -/
theorem tor_c7_readiness_deadline (dur : Nat → Nat) (hd : ∀ k, dur k ≤ 10) (d : Nat) :
    torStartupWait (fun _ => ConnectResult.ok d)
      = (WaitRes.ready d, [Act.connectAttempt true])
    ∧ ∃ tf k,
        torStartupWait (fun j => ConnectResult.fail (dur j))
          = (WaitRes.timedOut tf,
             (List.replicate k [Act.connectAttempt false, Act.sleep 2]).flatten)
        ∧ 300 ≤ tf ∧ tf ≤ 311 := by
  constructor
  · have h1 : torStartupWait (fun _ => ConnectResult.ok d)
        = (WaitRes.ready (0 + d), [Act.connectAttempt true]) := rfl
    simpa using h1
  · obtain ⟨tf, k, heq, _, hbnd⟩ := waitReadyAux_allFail dur hd 300 0 0 (by omega)
    exact ⟨tf, k, heq, (hbnd (by omega)).1, (hbnd (by omega)).2⟩

theorem tor_c7_witness :
    (∀ _k : Nat, (0 : Nat) ≤ 10)
    ∧ (torStartupWait (fun _ => ConnectResult.ok 3)
        = (WaitRes.ready 3, [Act.connectAttempt true])
       ∧ ∃ tf k,
           torStartupWait (fun _ => ConnectResult.fail 0)
             = (WaitRes.timedOut tf,
                (List.replicate k [Act.connectAttempt false, Act.sleep 2]).flatten)
           ∧ 300 ≤ tf ∧ tf ≤ 311) :=
  ⟨fun _ => by decide, tor_c7_readiness_deadline (fun _ => 0) (fun _ => Nat.zero_le 10) 3⟩

/-- C8: the readiness wait never inspects the exit status of the
managed process — its trace contains no poll and no wait act — so with
a process that exited immediately but a port that never accepts, the
loop still runs to the full 300 ds deadline before the start operation
reports the timeout failure. -/
theorem tor_c8_no_exit_inspection (dur : Nat → Nat) (hd : ∀ k, dur k ≤ 10)
    (tmpdir : String) (pid : Nat) (s : TorState) :
    (∃ tf, (torStartupWait (fun j => ConnectResult.fail (dur j))).1 = WaitRes.timedOut tf
        ∧ 300 ≤ tf)
    ∧ ((torStartupWait (fun j => ConnectResult.fail (dur j))).2).all
        (fun a => !inspectsProcess a) = true
    ∧ (TorProxy.enter ⟨tmpdir, pid, fun j => ConnectResult.fail (dur j)⟩ s).1
        = some PyError.runtimeError := by
  obtain ⟨tf, k, heq, _, hbnd⟩ := waitReadyAux_allFail dur hd 300 0 0 (by omega)
  have ht : torStartupWait (fun j => ConnectResult.fail (dur j))
      = (WaitRes.timedOut tf,
         (List.replicate k [Act.connectAttempt false, Act.sleep 2]).flatten) := heq
  have hw := waitReadyAux_trace_waitActs (fun j => ConnectResult.fail (dur j)) 300 300 0 0
  refine ⟨⟨tf, by rw [ht], (hbnd (by omega)).1⟩, ?_, ?_⟩
  · exact no_inspection_of_waitActs _ hw
  · simp [TorProxy.enter, ht]

theorem tor_c8_witness :
    (∀ _k : Nat, (8 : Nat) ≤ 10)
    ∧ ((∃ tf, (torStartupWait (fun _ => ConnectResult.fail 8)).1 = WaitRes.timedOut tf
          ∧ 300 ≤ tf)
       ∧ ((torStartupWait (fun _ => ConnectResult.fail 8)).2).all
           (fun a => !inspectsProcess a) = true
       ∧ (TorProxy.enter envFail sampleFresh).1 = some PyError.runtimeError) :=
  ⟨fun _ => by decide,
   tor_c8_no_exit_inspection (fun _ => 8) (fun _ => @Nat.le.intro 8 10 2 rfl)
     ("/tmp/tor_data_0") 42 sampleFresh⟩
